import Mathlib

/-!
Shallow embedding of the twm compositor (src/main.rs) for verification.

The repository is a single-file smithay-based Wayland compositor.  The
definitions below translate, line by line, the event handlers of main.rs
(the redraw-timer tick, the pointer/keyboard/axis input arms, the xdg-shell
callbacks) together with the small fragment of smithay's desktop::Space and
input::AxisFrame semantics that those handlers invoke.  Effects that the
Rust code performs on external collaborators (sending protocol events,
binding the renderer, panicking through expect) are recorded as explicit
actions in an ordered trace so that ordering and delivery claims can be
stated.
-/

namespace Twm

/-- Logical coordinates, as used by smithay's Space (integral logical points;
the f64 pointer location is only ever hit-tested against integral window
rectangles, so integral points suffice for the embedding). -/
abbrev Pos := Int × Int

/-- A toplevel window as the Space sees it: an identity (modelling the Rust
Window handle / its wl_surface), its geometry size, and the xdg activated
flag that smithay's set_activate / set_activated toggles. -/
structure Window where
  id : Nat
  width : Int
  height : Int
  activated : Bool
deriving DecidableEq, Repr

/-- Models smithay's Window::new (called at src/main.rs:233): a fresh window
for a toplevel surface, initially not activated. -/
def Window.new (id : Nat) (width height : Int) : Window :=
  ⟨id, width, height, false⟩

/-- A window mapped into the Space together with its location. -/
structure SpaceElem where
  win : Window
  loc : Pos
deriving DecidableEq, Repr

/-- Models SpaceElement::set_activate on a mapped window. -/
def setActivate (e : SpaceElem) (b : Bool) : SpaceElem :=
  { e with win := { e.win with activated := b } }

/-- Models smithay's desktop::Space: the z-ordered list of mapped windows,
back to front (the last element is the topmost window). -/
structure Space where
  elems : List SpaceElem
deriving DecidableEq, Repr

/-- Point-in-window test: the input region of a mapped window is its
rectangle at its mapped location. -/
def hitTest (e : SpaceElem) (p : Pos) : Bool :=
  decide (e.loc.1 ≤ p.1) && decide (p.1 < e.loc.1 + e.win.width) &&
  decide (e.loc.2 ≤ p.2) && decide (p.2 < e.loc.2 + e.win.height)

/-- Models smithay's Space::element_under (called at src/main.rs:513 and via
surface_under at 154): walks the z-order topmost first and returns the first
window whose input region contains the point. -/
def Space.elementUnder (s : Space) (p : Pos) : Option SpaceElem :=
  s.elems.reverse.find? (fun e => hitTest e p)

/-- Models smithay's Space internal insert: pushes the element on top; when
activate is set, the inserted element is activated and every other mapped
window is deactivated. -/
def Space.insertElem (s : Space) (e : SpaceElem) (activate : Bool) : Space :=
  if activate then
    ⟨(s.elems.map (fun x => setActivate x false)) ++ [setActivate e true]⟩
  else
    ⟨s.elems ++ [e]⟩

/-- Models smithay's Space::raise_element (called at src/main.rs:516): if the
window is mapped, removes it from its current z-position and re-inserts it
on top, with the same activation semantics as insertElem. -/
def Space.raiseElement (s : Space) (wid : Nat) (activate : Bool) : Space :=
  match s.elems.find? (fun x => x.win.id == wid) with
  | none => s
  | some e => Space.insertElem ⟨s.elems.eraseP (fun x => x.win.id == wid)⟩ e activate

/-- Models smithay's Space::map_element (called at src/main.rs:234): removes
any previous instance of the window and inserts it on top at the given
location, with the same activation semantics as insertElem. -/
def Space.mapElement (s : Space) (w : Window) (loc : Pos) (activate : Bool) : Space :=
  Space.insertElem ⟨s.elems.eraseP (fun x => x.win.id == w.id)⟩ ⟨w, loc⟩ activate

/-- Embeds XdgShellHandler::new_toplevel (src/main.rs:231-240): builds a
Window for the new toplevel surface and maps it into the space at (0, 0)
with activate = false. -/
def newToplevel (s : Space) (surfaceId : Nat) (w h : Int) : Space :=
  s.mapElement (Window.new surfaceId w h) (0, 0) false

/-- Pointer button state, as in smithay's backend::input::ButtonState. -/
inductive ButtonState where
  | pressed
  | released
deriving DecidableEq, Repr

/-- A pointer-button input event as consumed by the PointerButton arm. -/
structure PointerButtonEvent where
  button : Nat
  state : ButtonState
  time : Nat
deriving DecidableEq, Repr

/-- Scroll source, as in smithay's AxisSource. -/
inductive AxisSource where
  | wheel
  | finger
  | continuous
  | wheelTilt
deriving DecidableEq, Repr

/-- A scroll axis, as in smithay's backend::input::Axis. -/
inductive ScrollAxis where
  | horizontal
  | vertical
deriving DecidableEq, Repr

/-- Models smithay's input::pointer::AxisFrame: per-axis continuous values
(zero when unset), optional per-axis discrete steps, a source tag and a
timestamp.  Scroll amounts are f64 in the Rust code; the embedding uses
exact rationals. -/
structure AxisFrame where
  time : Nat
  source : Option AxisSource
  hValue : ℚ
  vValue : ℚ
  hDiscrete : Option Int
  vDiscrete : Option Int
deriving DecidableEq, Repr

/-- Models AxisFrame::new: a frame with no source and zero amounts. -/
def AxisFrame.new (time : Nat) : AxisFrame :=
  ⟨time, none, 0, 0, none, none⟩

/-- Models AxisFrame::source: tags the frame with its scroll source. -/
def AxisFrame.withSource (f : AxisFrame) (s : AxisSource) : AxisFrame :=
  { f with source := some s }

/-- Models AxisFrame::value: sets the continuous amount on one axis. -/
def AxisFrame.value (f : AxisFrame) (a : ScrollAxis) (v : ℚ) : AxisFrame :=
  match a with
  | ScrollAxis.horizontal => { f with hValue := v }
  | ScrollAxis.vertical => { f with vValue := v }

/-- Models AxisFrame::discrete: sets the discrete step count on one axis. -/
def AxisFrame.discrete (f : AxisFrame) (a : ScrollAxis) (d : Int) : AxisFrame :=
  match a with
  | ScrollAxis.horizontal => { f with hDiscrete := some d }
  | ScrollAxis.vertical => { f with vDiscrete := some d }

/-- A pointer-axis input event: per-axis optional continuous amount
(event.amount) and optional discrete amount (event.amount_discrete), plus
source and timestamp. -/
structure PointerAxisEvent where
  time : Nat
  source : AxisSource
  hAmount : Option ℚ
  vAmount : Option ℚ
  hAmountDiscrete : Option ℚ
  vAmountDiscrete : Option ℚ
deriving DecidableEq, Repr

/-- Models the Rust cast (value as i32), i.e. truncation toward zero. -/
def ratTrunc (q : ℚ) : Int :=
  Int.tdiv q.num (q.den : Int)

/-- Embeds one per-axis block of the PointerAxis arm (src/main.rs:554-565):
when the merged amount is nonzero the continuous value is recorded on the
frame, and the discrete step count is recorded when present. -/
def applyAxisValue (f : AxisFrame) (a : ScrollAxis) (amount : ℚ) (dis : Option ℚ) : AxisFrame :=
  if amount ≠ 0 then
    match dis with
    | some v => (f.value a amount).discrete a (ratTrunc v)
    | none => f.value a amount
  else f

/-- Embeds the PointerAxis arm (src/main.rs:542-568): per axis, the amount is
the continuous amount when present, otherwise the discrete amount (0 when
absent) scaled by 3.0; the frame is tagged with the event source and then
filled per axis. -/
def handlePointerAxis (ev : PointerAxisEvent) : AxisFrame :=
  applyAxisValue
    (applyAxisValue ((AxisFrame.new ev.time).withSource ev.source)
      ScrollAxis.horizontal (ev.hAmount.getD (ev.hAmountDiscrete.getD 0 * 3)) ev.hAmountDiscrete)
    ScrollAxis.vertical (ev.vAmount.getD (ev.vAmountDiscrete.getD 0 * 3)) ev.vAmountDiscrete

/-- The compositor state as the timer handler sees it: the Space, the
Seat's keyboard focus, and the pointer's location, focus and grab flag. -/
structure TwmState where
  space : Space
  kbFocus : Option Nat
  pointerLoc : Pos
  pointerFocus : Option Nat
  pointerGrabbed : Bool
deriving DecidableEq, Repr

/-- Filter verdict of the keyboard input filter, as in smithay's
input::keyboard::FilterResult. -/
inductive FilterResult where
  | forward
  | intercept
deriving DecidableEq, Repr

/-- Embeds the key-event filter closure installed at src/main.rs:483-486: it
logs the key code and returns FilterResult::Forward for every event. -/
def twmKeyFilter (_st : TwmState) (_key : Nat) (_pressed : Bool) : FilterResult :=
  FilterResult.forward

/-- Observable effects of the handlers, in emission order: protocol events
sent to clients, renderer calls, and loop-control effects.  Each constructor
corresponds to one call site in main.rs. -/
inductive Action where
  | forwardKey (surface : Nat) (key : Nat) (pressed : Bool)
  | motionTo (surface : Option Nat) (pos : Pos)
  | sendConfigure (wid : Nat)
  | forwardButton (button : Nat) (state : ButtonState)
  | forwardAxis (frame : AxisFrame)
  | stopLoop
  | bindGfx
  | renderOutput (space : Space)
  | submitDamage
  | sendFrame (wid : Nat)
  | refreshSpace
  | flushClients
deriving DecidableEq, Repr

/-- Embeds the InputEvent::PointerButton arm (src/main.rs:503-541).  On a
press with no active grab: a hit raises the window (activating it and
deactivating the others), sets keyboard focus to it and sends pending
configures; a miss deactivates every window, sends pending configures and
clears keyboard focus; then pointer.button forwards the event.  Note that in
the source the pointer.button call (lines 531-539) is inside the
press-and-ungrabbed branch, so nothing at all happens otherwise. -/
def handlePointerButton (st : TwmState) (ev : PointerButtonEvent) : TwmState × List Action :=
  if ev.state == ButtonState.pressed && !st.pointerGrabbed then
    match st.space.elementUnder st.pointerLoc with
    | some e =>
      let space1 := st.space.raiseElement e.win.id true
      ({ st with space := space1, kbFocus := some e.win.id },
       space1.elems.map (fun x => Action.sendConfigure x.win.id)
         ++ [Action.forwardButton ev.button ev.state])
    | none =>
      ({ st with space := ⟨st.space.elems.map (fun x => setActivate x false)⟩,
                 kbFocus := none },
       st.space.elems.map (fun x => Action.sendConfigure x.win.id)
         ++ [Action.forwardButton ev.button ev.state])
  else (st, [])

/-- The input events the winit backend produces inside one tick.  The
pointer-motion position is carried already transformed into output-logical
coordinates (the transformation at src/main.rs:490-492 belongs to the
backend boundary). -/
inductive InputEvent where
  | keyboard (key : Nat) (pressed : Bool)
  | pointerMotionAbsolute (pos : Pos)
  | pointerButton (ev : PointerButtonEvent)
  | pointerAxis (ev : PointerAxisEvent)
deriving DecidableEq, Repr

/-- Embeds the per-event dispatch of the WinitEvent::Input match
(src/main.rs:471-571): keyboard events go through keyboard.input with the
always-forward filter and reach the keyboard focus; absolute motion
re-hit-tests the space, updates pointer location and focus and emits the
motion; button events go to handlePointerButton; axis events build the frame
and forward it. -/
def applyInputEvent (st : TwmState) (ev : InputEvent) : TwmState × List Action :=
  match ev with
  | InputEvent.keyboard key pressed =>
    match twmKeyFilter st key pressed with
    | FilterResult.forward =>
      match st.kbFocus with
      | some sid => (st, [Action.forwardKey sid key pressed])
      | none => (st, [])
    | FilterResult.intercept => (st, [])
  | InputEvent.pointerMotionAbsolute pos =>
    ({ st with pointerLoc := pos,
               pointerFocus := (st.space.elementUnder pos).map (fun e => e.win.id) },
     [Action.motionTo ((st.space.elementUnder pos).map (fun e => e.win.id)) pos])
  | InputEvent.pointerButton bev => handlePointerButton st bev
  | InputEvent.pointerAxis aev => (st, [Action.forwardAxis (handlePointerAxis aev)])

/-- Drains the backend's pending input queue in order, as
winit_el.dispatch_new_events does at src/main.rs:471, threading the state
and accumulating the emitted actions. -/
def applyAllInput (st : TwmState) (events : List InputEvent) : TwmState × List Action :=
  events.foldl
    (fun acc ev =>
      ((applyInputEvent acc.1 ev).1, acc.2 ++ (applyInputEvent acc.1 ev).2))
    (st, [])

/-- The winit backend's error type: the backend window was closed. -/
inductive WinitError where
  | windowClosed
deriving DecidableEq, Repr

/-- Calloop timer rescheduling decision, as in calloop's TimeoutAction. -/
inductive TimeoutAction where
  | drop
  | toDuration (ms : Nat)
deriving DecidableEq, Repr

/-- How one timer tick ends: the handler returns a rescheduling decision, or
one of its expect calls panics (aborting the process). -/
inductive TickOutcome where
  | completed (ta : TimeoutAction)
  | panicked (msg : String)
deriving DecidableEq, Repr

/-- True when the tick ended in a panic. -/
def TickOutcome.isPanic : TickOutcome → Bool
  | TickOutcome.panicked _ => true
  | TickOutcome.completed _ => false

/-- Success or failure of the external calls one tick makes: renderer bind,
render_output, submit, and flush_clients. -/
structure GfxResults where
  bindOk : Bool
  renderOk : Bool
  submitOk : Bool
  flushOk : Bool
deriving DecidableEq, Repr

/-- Embeds the redraw-timer handler (src/main.rs:468-622).  It first drains
and applies every pending input event; if the backend reported
WindowClosed the loop signal is stopped and the timer source dropped;
otherwise it binds the renderer, renders the output reading the
post-input Space, submits the damage, sends a frame-done to every mapped
window, refreshes the Space, flushes clients, and reschedules after 16 ms.
Every external failure goes through expect, i.e. panics. -/
def tick (st : TwmState) (events : List InputEvent) (res : Option WinitError)
    (gfx : GfxResults) : TwmState × List Action × TickOutcome :=
  let st1 := (applyAllInput st events).1
  let inActs := (applyAllInput st events).2
  match res with
  | some WinitError.windowClosed =>
    (st1, inActs ++ [Action.stopLoop], TickOutcome.completed TimeoutAction.drop)
  | none =>
    if !gfx.bindOk then
      (st1, inActs, TickOutcome.panicked ("Failed to bind gfx context"))
    else if !gfx.renderOk then
      (st1, inActs ++ [Action.bindGfx], TickOutcome.panicked ("Failed to render output"))
    else if !gfx.submitOk then
      (st1, inActs ++ [Action.bindGfx, Action.renderOutput st1.space],
       TickOutcome.panicked ("Failed to submit damage on gfx backend"))
    else if !gfx.flushOk then
      (st1, inActs ++ [Action.bindGfx, Action.renderOutput st1.space, Action.submitDamage]
        ++ st1.space.elems.map (fun e => Action.sendFrame e.win.id)
        ++ [Action.refreshSpace],
       TickOutcome.panicked ("Flush clients correctly"))
    else
      (st1, inActs ++ [Action.bindGfx, Action.renderOutput st1.space, Action.submitDamage]
        ++ st1.space.elems.map (fun e => Action.sendFrame e.win.id)
        ++ [Action.refreshSpace, Action.flushClients],
       TickOutcome.completed (TimeoutAction.toDuration 16))

/-- How the client dispatch source callback ends. -/
inductive DispatchOutcome where
  | continueLoop
  | panicked (msg : String)
deriving DecidableEq, Repr

/-- Embeds the client dispatch source callback (src/main.rs:420-431):
dispatch_clients is unwrapped with expect, so a dispatch error panics the
process; on success the source posts PostAction::Continue. -/
def clientDispatchHandler (dispatchOk : Bool) : DispatchOutcome :=
  if dispatchOk then DispatchOutcome.continueLoop
  else DispatchOutcome.panicked ("Dispatch state to clients")

/-- The Seat state a popup grab request consults: the most recent input
serial the Seat has seen and the surface currently holding a grab. -/
structure SeatGrabState where
  lastSerial : Nat
  grabHolder : Option Nat
deriving DecidableEq, Repr

/-- Embeds XdgShellHandler::grab (src/main.rs:246-251): the handler body only
prints; it never inspects the serial and never installs a grab. -/
def xdgGrab (g : SeatGrabState) (_surfaceId : Nat) (_serial : Nat) : SeatGrabState :=
  g

/-- Embeds main's WAYLAND_DISPLAY handling (src/main.rs:405, 437-439 and
644-647): the initial value is read at startup, the variable is set to the
new socket name after the socket listens, and on shutdown it is set back to
the initial value only when one existed.  Returns the variable's value
after listen and its value after shutdown. -/
def waylandDisplayFlow (initial : Option String) (socketName : String) :
    Option String × Option String :=
  (some socketName,
   match initial with
   | some name => some name
   | none => some socketName)

/-- Embeds the tail of main (src/main.rs:640-648): once the event loop run
returns (the stop signal raised by the timer handler on backend close ends
it normally), the WAYLAND_DISPLAY restore runs and main returns Ok(()), so
the process exit code is 0.  Returns the final variable value and the exit
code. -/
def mainRunResult (initial : Option String) (socketName : String) : Option String × Nat :=
  ((waylandDisplayFlow initial socketName).2, 0)

/-! ## Theorems -/

/-- C1: a pointer-button press handled with no grab active raises the window
under the pointer to the top of the z-order, activates it, deactivates every
other window and sets keyboard focus to it; with no window under the
pointer, keyboard focus is cleared and every window is deactivated.  The
state is universally quantified, so the hit window may start at any
z-position. -/
theorem pointer_button_press_policy (st : TwmState) (ev : PointerButtonEvent)
    (hpress : ev.state = ButtonState.pressed) (hgrab : st.pointerGrabbed = false) :
    (∀ e, st.space.elementUnder st.pointerLoc = some e →
      (∃ rest top, (handlePointerButton st ev).1.space.elems = rest ++ [top] ∧
        top.win.id = e.win.id ∧ top.win.activated = true ∧
        ∀ x ∈ rest, x.win.activated = false) ∧
      (handlePointerButton st ev).1.kbFocus = some e.win.id) ∧
    (st.space.elementUnder st.pointerLoc = none →
      (handlePointerButton st ev).1.kbFocus = none ∧
      ∀ x ∈ (handlePointerButton st ev).1.space.elems, x.win.activated = false) := by
  have hcond : (ev.state == ButtonState.pressed && !st.pointerGrabbed) = true := by
    rw [hpress, hgrab]; rfl
  constructor
  · intro e he
    have he' : st.space.elems.reverse.find? (fun x => hitTest x st.pointerLoc) = some e := he
    have hmem : e ∈ st.space.elems :=
      List.mem_reverse.mp (List.mem_of_find?_eq_some he')
    cases hf : st.space.elems.find? (fun x => x.win.id == e.win.id) with
    | none =>
      exfalso
      rw [List.find?_eq_none] at hf
      exact hf e hmem (by simp)
    | some f =>
      have hfid : f.win.id = e.win.id := by
        have h2 := List.find?_some hf
        simpa using h2
      constructor
      · refine ⟨(st.space.elems.eraseP (fun x => x.win.id == e.win.id)).map
            (fun x => setActivate x false), setActivate f true, ?_, ?_, rfl, ?_⟩
        · simp [handlePointerButton, hcond, he, Space.raiseElement, hf, Space.insertElem]
        · simpa [setActivate] using hfid
        · intro x hx
          obtain ⟨y, _, rfl⟩ := List.mem_map.mp hx
          rfl
      · simp [handlePointerButton, hcond, he]
  · intro he
    constructor
    · simp [handlePointerButton, hcond, he]
    · intro x hx
      have hsp : (handlePointerButton st ev).1.space.elems
          = st.space.elems.map (fun y => setActivate y false) := by
        simp [handlePointerButton, hcond, he]
      rw [hsp] at hx
      obtain ⟨y, _, rfl⟩ := List.mem_map.mp hx
      rfl

/-- Witness for C1: two windows, the bottom one (id 1) under the pointer at
(5, 5); after the press it holds keyboard focus. -/
theorem pointer_button_press_policy_witness :
    (handlePointerButton
      ⟨⟨[⟨⟨1, 10, 10, false⟩, (0, 0)⟩, ⟨⟨2, 10, 10, true⟩, (20, 20)⟩]⟩,
        none, (5, 5), none, false⟩
      ⟨272, ButtonState.pressed, 0⟩).1.kbFocus = some 1 :=
  ((pointer_button_press_policy
      ⟨⟨[⟨⟨1, 10, 10, false⟩, (0, 0)⟩, ⟨⟨2, 10, 10, true⟩, (20, 20)⟩]⟩,
        none, (5, 5), none, false⟩
      ⟨272, ButtonState.pressed, 0⟩ rfl rfl).1
    ⟨⟨1, 10, 10, false⟩, (0, 0)⟩ (by decide)).2

/-- C2 (code evaluated at the failing inputs): the claim that every
pointer-button event is forwarded to the pointer focus fails — a button
release over a focused window, and a button press while a grab is active,
both produce no action at all, because the pointer.button call at
src/main.rs:531-539 sits inside the press-and-ungrabbed branch. -/
theorem button_event_not_always_forwarded :
    (handlePointerButton
      ⟨⟨[⟨⟨1, 10, 10, true⟩, (0, 0)⟩]⟩, some 1, (5, 5), some 1, false⟩
      ⟨272, ButtonState.released, 100⟩).2 = [] ∧
    (handlePointerButton
      ⟨⟨[⟨⟨1, 10, 10, true⟩, (0, 0)⟩]⟩, some 1, (5, 5), some 1, true⟩
      ⟨272, ButtonState.pressed, 100⟩).2 = [] :=
  ⟨rfl, rfl⟩

/-- C9: a new toplevel is mapped on top of the space at position (0, 0) and
its window is not activated at map time, for any pre-existing layout. -/
theorem new_toplevel_maps_origin_inactive (s : Space) (sid : Nat) (w h : Int) :
    (newToplevel s sid w h).elems
      = s.elems.eraseP (fun e => e.win.id == sid) ++ [⟨Window.new sid w h, (0, 0)⟩] ∧
    (Window.new sid w h).activated = false := by
  constructor
  · simp [newToplevel, Space.mapElement, Space.insertElem, Window.new]
  · rfl

/-- The vertical per-axis block leaves the horizontal continuous value
untouched. -/
lemma applyAxisValue_vertical_hValue (f : AxisFrame) (a : ℚ) (d : Option ℚ) :
    (applyAxisValue f ScrollAxis.vertical a d).hValue = f.hValue := by
  cases d <;> by_cases h : a ≠ 0 <;>
    simp [applyAxisValue, h, AxisFrame.value, AxisFrame.discrete]

/-- The horizontal per-axis block leaves the vertical continuous value
untouched. -/
lemma applyAxisValue_horizontal_vValue (f : AxisFrame) (a : ℚ) (d : Option ℚ) :
    (applyAxisValue f ScrollAxis.horizontal a d).vValue = f.vValue := by
  cases d <;> by_cases h : a ≠ 0 <;>
    simp [applyAxisValue, h, AxisFrame.value, AxisFrame.discrete]

/-- The horizontal per-axis block records the merged amount when it is
nonzero and otherwise leaves the frame value. -/
lemma applyAxisValue_horizontal_hValue (f : AxisFrame) (a : ℚ) (d : Option ℚ) :
    (applyAxisValue f ScrollAxis.horizontal a d).hValue = if a ≠ 0 then a else f.hValue := by
  cases d <;> by_cases h : a ≠ 0 <;>
    simp [applyAxisValue, h, AxisFrame.value, AxisFrame.discrete]

/-- The vertical per-axis block records the merged amount when it is nonzero
and otherwise leaves the frame value. -/
lemma applyAxisValue_vertical_vValue (f : AxisFrame) (a : ℚ) (d : Option ℚ) :
    (applyAxisValue f ScrollAxis.vertical a d).vValue = if a ≠ 0 then a else f.vValue := by
  cases d <;> by_cases h : a ≠ 0 <;>
    simp [applyAxisValue, h, AxisFrame.value, AxisFrame.discrete]

/-- C3: on each axis, a scroll event carrying only a discrete amount d and
no continuous amount yields a continuous value of 3 * d in the emitted axis
frame, while a present continuous amount is used unchanged (AxisFrame.new
starts both values at 0, so an unset value reads as 0). -/
theorem axis_discrete_scaled (ev : PointerAxisEvent) :
    (∀ d : ℚ, ev.hAmount = none → ev.hAmountDiscrete = some d →
      (handlePointerAxis ev).hValue = 3 * d) ∧
    (∀ c : ℚ, ev.hAmount = some c → (handlePointerAxis ev).hValue = c) ∧
    (∀ d : ℚ, ev.vAmount = none → ev.vAmountDiscrete = some d →
      (handlePointerAxis ev).vValue = 3 * d) ∧
    (∀ c : ℚ, ev.vAmount = some c → (handlePointerAxis ev).vValue = c) := by
  have hh : (handlePointerAxis ev).hValue
      = if ev.hAmount.getD (ev.hAmountDiscrete.getD 0 * 3) ≠ 0 then
          ev.hAmount.getD (ev.hAmountDiscrete.getD 0 * 3) else 0 := by
    rw [handlePointerAxis, applyAxisValue_vertical_hValue, applyAxisValue_horizontal_hValue]
    rfl
  have hv : (handlePointerAxis ev).vValue
      = if ev.vAmount.getD (ev.vAmountDiscrete.getD 0 * 3) ≠ 0 then
          ev.vAmount.getD (ev.vAmountDiscrete.getD 0 * 3) else 0 := by
    rw [handlePointerAxis, applyAxisValue_vertical_vValue, applyAxisValue_horizontal_vValue]
    rfl
  refine ⟨?_, ?_, ?_, ?_⟩
  · intro d h1 h2
    rw [hh, h1, h2]
    by_cases hd : d = 0
    · simp [hd]
    · have h3 : (d * 3 : ℚ) ≠ 0 := mul_ne_zero hd (by norm_num)
      rw [if_pos (by simpa [Option.getD] using h3)]
      simp [Option.getD, mul_comm]
  · intro c h1
    rw [hh, h1]
    by_cases hc : c = 0
    · simp [hc]
    · rw [if_pos (by simpa [Option.getD] using hc)]
      rfl
  · intro d h1 h2
    rw [hv, h1, h2]
    by_cases hd : d = 0
    · simp [hd]
    · have h3 : (d * 3 : ℚ) ≠ 0 := mul_ne_zero hd (by norm_num)
      rw [if_pos (by simpa [Option.getD] using h3)]
      simp [Option.getD, mul_comm]
  · intro c h1
    rw [hv, h1]
    by_cases hc : c = 0
    · simp [hc]
    · rw [if_pos (by simpa [Option.getD] using hc)]
      rfl

/-- Witness for C3: a wheel event with only a horizontal discrete amount of
2 produces a continuous value of 3 * 2 on the horizontal axis. -/
theorem axis_discrete_scaled_witness :
    (handlePointerAxis ⟨0, AxisSource.wheel, none, none, some 2, none⟩).hValue = 3 * 2 :=
  (axis_discrete_scaled ⟨0, AxisSource.wheel, none, none, some 2, none⟩).1 2 rfl rfl

/-- C4: in a successful tick, all pending input is drained and applied
first (its actions form the trace prefix and the rendered Space is the
post-input Space), then the renderer is bound, the output rendered and the
damage submitted, then a frame-done goes to every mapped window, then the
Space is refreshed, then clients are flushed, and the timer is rescheduled
after 16 ms. -/
theorem tick_order_input_render_frames (st : TwmState) (events : List InputEvent) :
    tick st events none ⟨true, true, true, true⟩
      = ((applyAllInput st events).1,
         (applyAllInput st events).2
           ++ [Action.bindGfx,
               Action.renderOutput (applyAllInput st events).1.space,
               Action.submitDamage]
           ++ (applyAllInput st events).1.space.elems.map (fun e => Action.sendFrame e.win.id)
           ++ [Action.refreshSpace, Action.flushClients],
         TickOutcome.completed (TimeoutAction.toDuration 16)) := rfl

/-- C5: when the backend reports WindowClosed, the tick (after applying the
drained input) signals the loop to stop and drops the timer source, the
outcome is a completed tick and not a panic, no render work runs, and main
then returns with exit code 0 — for any state of the graphics backend, so
closure is never an error. -/
theorem backend_close_clean_shutdown (st : TwmState) (events : List InputEvent)
    (gfx : GfxResults) (initial : Option String) (socketName : String) :
    tick st events (some WinitError.windowClosed) gfx
      = ((applyAllInput st events).1,
         (applyAllInput st events).2 ++ [Action.stopLoop],
         TickOutcome.completed TimeoutAction.drop) ∧
    (mainRunResult initial socketName).2 = 0 :=
  ⟨rfl, rfl⟩

/-- C6 counterexample: a single client dispatch error, and a single submit
error in one tick, each end in a panic (process abort) — the outcome is not
a continued loop and the tick does not reschedule, contradicting the claim
that such transient failures are isolated at tick granularity. -/
theorem transient_failure_panics_counterexample :
    clientDispatchHandler false = DispatchOutcome.panicked ("Dispatch state to clients") ∧
    (tick ⟨⟨[]⟩, none, (0, 0), none, false⟩ [] none ⟨true, true, false, true⟩).2.2
      = TickOutcome.panicked ("Failed to submit damage on gfx backend") ∧
    (tick ⟨⟨[]⟩, none, (0, 0), none, false⟩ [] none ⟨true, true, false, true⟩).2.2
      ≠ TickOutcome.completed (TimeoutAction.toDuration 16) :=
  ⟨rfl, rfl, by decide⟩

/-- C6 amended: a client dispatch error panics the process, and any renderer
bind, render or submit failure makes the tick end in a panic rather than
completing — per-tick failures abort the process instead of being isolated. -/
theorem transient_failures_abort (st : TwmState) (events : List InputEvent)
    (gfx : GfxResults)
    (h : gfx.bindOk = false ∨ gfx.renderOk = false ∨ gfx.submitOk = false) :
    clientDispatchHandler false = DispatchOutcome.panicked ("Dispatch state to clients") ∧
    TickOutcome.isPanic (tick st events none gfx).2.2 = true := by
  refine ⟨rfl, ?_⟩
  obtain ⟨b, r, s, f⟩ := gfx
  cases b <;> cases r <;> cases s <;> cases f <;> first | rfl | simp_all

/-- Witness for C6 amended: the submit failure from the counterexample
configuration makes the tick panic. -/
theorem transient_failures_abort_witness :
    clientDispatchHandler false = DispatchOutcome.panicked ("Dispatch state to clients") ∧
    TickOutcome.isPanic
      (tick ⟨⟨[]⟩, none, (0, 0), none, false⟩ [] none ⟨true, true, false, true⟩).2.2 = true :=
  transient_failures_abort ⟨⟨[]⟩, none, (0, 0), none, false⟩ [] ⟨true, true, false, true⟩
    (Or.inr (Or.inr rfl))

/-- C7 counterexample: a popup grab request whose serial (5) equals the most
recent input serial seen by the Seat is not installed either — the handler
leaves the grab state untouched, so no grab holder exists afterwards,
contradicting the claim that a current-serial grab is installed. -/
theorem grab_current_serial_not_installed :
    xdgGrab ⟨5, none⟩ 1 5 = ⟨5, none⟩ ∧ (xdgGrab ⟨5, none⟩ 1 5).grabHolder ≠ some 1 :=
  ⟨rfl, by decide⟩

/-- C7 amended: every popup grab request is ignored regardless of its
serial — the handler only logs, installs no grab and raises no error, so
pointer routing is unchanged. -/
theorem grab_request_always_ignored (g : SeatGrabState) (surfaceId serial : Nat) :
    xdgGrab g surfaceId serial = g :=
  rfl

/-- C8 counterexample: with WAYLAND_DISPLAY unset at startup, after clean
shutdown the variable still holds the new socket name — it is not cleared,
contradicting the claim. -/
theorem wayland_display_not_cleared :
    (waylandDisplayFlow none ("wayland-1")).2 = some ("wayland-1") ∧
    (waylandDisplayFlow none ("wayland-1")).2 ≠ none :=
  ⟨rfl, by simp [waylandDisplayFlow]⟩

/-- C8 amended: WAYLAND_DISPLAY is set to the new socket name on successful
listen; on clean shutdown it is restored to its previous value when one
existed and otherwise left holding the new socket name (never cleared). -/
theorem wayland_display_flow_spec (initial : Option String) (socketName : String) :
    (waylandDisplayFlow initial socketName).1 = some socketName ∧
    (waylandDisplayFlow initial socketName).2 = some (initial.getD socketName) := by
  cases initial <;> simp [waylandDisplayFlow]

/-- C10: the installed keyboard filter returns Forward for every key event,
and consequently a key event arriving while a surface holds keyboard focus
is delivered to that surface. -/
theorem keyboard_filter_forwards_all (st : TwmState) :
    (∀ s k p, twmKeyFilter s k p = FilterResult.forward) ∧
    (∀ key pressed sid, st.kbFocus = some sid →
      applyInputEvent st (InputEvent.keyboard key pressed)
        = (st, [Action.forwardKey sid key pressed])) := by
  refine ⟨fun _ _ _ => rfl, ?_⟩
  intro key pressed sid hfocus
  simp [applyInputEvent, twmKeyFilter, hfocus]

/-- Witness for C10: with keyboard focus on surface 7, key 30 is delivered
to surface 7. -/
theorem keyboard_filter_forwards_all_witness :
    applyInputEvent ⟨⟨[]⟩, some 7, (0, 0), none, false⟩ (InputEvent.keyboard 30 true)
      = (⟨⟨[]⟩, some 7, (0, 0), none, false⟩, [Action.forwardKey 7 30 true]) :=
  (keyboard_filter_forwards_all ⟨⟨[]⟩, some 7, (0, 0), none, false⟩).2 30 true 7 rfl

end Twm
